import Mathlib

set_option autoImplicit false

/-!
Verification of the sansshell proxy core against its specification.

The development shallowly embeds the two source files that the claims are
about:

* `src/proxy/server/server.go` — the proxy session: the `send` pump, the
  `receive` pump, the `dispatch` loop, and the `Proxy` coordinator built on
  `errgroup`.  The session's interaction with the network and with the
  concurrently running target streams is represented by explicit traces of
  events (one constructor per way a blocking operation can resolve), and the
  `TargetStreamSet` — whose implementation lives outside these files and whose
  returned errors are all `dispatch` depends on — is an abstract state with the
  operations `dispatch` invokes.

* `src/proxy/protoc-gen-go-grpcproxy/main.go` — the generator of the client
  OneMany surface.  The embedded definitions are the semantics of the emitted
  Go code (the `g.P` lines), with gRPC primitives (`Invoke`, `RecvMsg`,
  `CloseSend`, `UnmarshalTo`) represented by their outcomes.
-/

namespace Sansshell

/-- gRPC status codes used by the embedded code. -/
inductive Code where
  | ok
  | cancelled
  | internal
  | unimplemented
  | failedPrecondition
  | unknownCode
deriving DecidableEq, Repr

/-- Go error values as the embedded code distinguishes them: io.EOF, a gRPC
status error (code plus message), or any other error identified by its
Error() text. -/
inductive Err where
  | ioEOF : Err
  | grpc : Code → String → Err
  | simple : String → Err
deriving DecidableEq, Repr

/-- Text of err.Error() for the embedded error values. -/
def Err.message : Err → String
  | .ioEOF => "EOF"
  | .grpc _ m => m
  | .simple m => m

/-- Model of errgroup.Group.Wait: the task results are listed in the order the
tasks returned; Wait yields the first non-nil error among them, or nil when
every task returned nil. -/
def errgroupWait (results : List (Option Err)) : Option Err :=
  (results.filterMap id).head?

/-- Model of errgroup.WithContext cancellation: the derived context is
cancelled as soon as some task has returned a non-nil error. -/
def errgroupCtxCancelled (returned : List (Option Err)) : Bool :=
  returned.any (fun r => r.isSome)

namespace server

/-- Result of server.Proxy (server.go): after launching the three tasks, the
final RPC status is the result of group.Wait, with a non-nil error rewritten to a gRPC
INTERNAL status carrying the error text. -/
def proxyResult (taskResults : List (Option Err)) : Option Err :=
  match errgroupWait taskResults with
  | none => none
  | some e => some (.grpc .internal e.message)

/-- Model of server.send: the reply channel content is a finite list of
messages, each paired with the outcome stream.Send would produce for it.  The
result is the return value of send together with the messages actually passed
to stream.Send, in order.  A failing Send returns its error at once, so no
later message is attempted. -/
def send {R : Type} : List (R × Option Err) → Option Err × List R
  | [] => (none, [])
  | (m, some e) :: _ => (some e, [m])
  | (m, none) :: rest =>
    let r := send rest
    (r.1, m :: r.2)

/-- Ways one iteration of the server.receive loop can resolve: stream.Recv
yields a request and the forward to requestChan is taken; stream.Recv yields a
request but ctx.Done fires while forwarding (the Err is ctx.Err()); stream.Recv
returns io.EOF; stream.Recv returns another error. -/
inductive RecvEvent (Req : Type) where
  | msg : Req → RecvEvent Req
  | msgCtxDone : Req → Err → RecvEvent Req
  | eof : RecvEvent Req
  | recvErr : Err → RecvEvent Req
deriving DecidableEq, Repr

/-- Model of server.receive over a trace of loop iterations.  none means the
loop is still blocked waiting for a further Recv beyond the supplied trace;
some (res, fwd) gives receive's return value and the requests forwarded to
requestChan, in order. -/
def receive {Req : Type} : List (RecvEvent Req) → Option (Option Err × List Req)
  | [] => none
  | .msg r :: rest =>
    match receive rest with
    | none => none
    | some (res, fwd) => some (res, r :: fwd)
  | .msgCtxDone _ ce :: _ => some (some ce, [])
  | .eof :: _ => some (none, [])
  | .recvErr e :: _ => some (some e, [])

/-- The receive goroutine as launched by Proxy: a defer closes requestChan
when receive returns.  The Bool records that requestChan has been closed. -/
def receiveTask {Req : Type} (tr : List (RecvEvent Req)) :
    Option (Option Err × List Req × Bool) :=
  match receive tr with
  | none => none
  | some (res, fwd) => some (res, fwd, true)

/-- Request frames of the proxy wire protocol as dispatch discriminates them.
The payload types of the four oneof cases are opaque to dispatch (they are
passed through to the stream set), so they are type parameters.  unhandled is
the default branch of the switch and carries the Go dynamic type name that the
%T verb would print. -/
inductive ProxyRequest (SS SD CC CL : Type) where
  | startStream : SS → ProxyRequest SS SD CC CL
  | streamData : SD → ProxyRequest SS SD CC CL
  | clientCancel : CC → ProxyRequest SS SD CC CL
  | clientClose : CL → ProxyRequest SS SD CC CL
  | unhandled : String → ProxyRequest SS SD CC CL
deriving DecidableEq, Repr

/-- Interface of a TargetStreamSet as dispatch uses it.  The implementation
lives outside the two source files; dispatch depends only on the state handle
and the first-error values the operations return, so the set is an abstract
state σ with one entry per operation dispatch invokes.  Each mutating
operation yields the new state and (where the source consumes one) the
returned error; Add's returned error is paired so that its being discarded by
dispatch is visible. -/
structure TargetStreamSet (σ SS SD CC CL : Type) where
  add : σ → SS → σ × Option Err
  send : σ → SD → σ × Option Err
  cancel : σ → CC → σ × Option Err
  clientClose : σ → CL → σ × Option Err
  remove : σ → Nat → σ
  clientCloseAll : σ → σ

/-- Calls dispatch makes on the stream set, recorded in order so that theorems
can speak about what was dispatched and when.  wait records the blocking
streamSet.Wait() call made after ClientCloseAll. -/
inductive Action (SS SD CC CL : Type) where
  | add : SS → Action SS SD CC CL
  | send : SD → Action SS SD CC CL
  | cancel : CC → Action SS SD CC CL
  | clientClose : CL → Action SS SD CC CL
  | remove : Nat → Action SS SD CC CL
  | clientCloseAll : Action SS SD CC CL
  | wait : Action SS SD CC CL
deriving DecidableEq, Repr

/-- Ways one iteration of the dispatch select can resolve: ctx.Done is ready
(the Err is ctx.Err(), non-nil once Done fired); doneChan delivers the id of a
finished stream; requestChan delivers a request; requestChan is observed
closed (the Option Err is the value of ctx.Err() at that moment, nil when the
scope has not been cancelled). -/
inductive DispatchEvent (SS SD CC CL : Type) where
  | ctxDone : Err → DispatchEvent SS SD CC CL
  | streamDone : Nat → DispatchEvent SS SD CC CL
  | req : ProxyRequest SS SD CC CL → DispatchEvent SS SD CC CL
  | reqChanClosed : Option Err → DispatchEvent SS SD CC CL
deriving DecidableEq, Repr

/-- State of the dispatch loop: the stream set handle, the value dispatch has
returned (some r once it returned r, none while it is still looping), and the
stream-set calls performed so far. -/
structure DispatchState (σ SS SD CC CL : Type) where
  set : σ
  result : Option (Option Err)
  acts : List (Action SS SD CC CL)
deriving DecidableEq, Repr

/-- One iteration of server.dispatch.  A dispatcher that has already returned
does nothing.  ctx.Done returns ctx.Err(); a finished stream is Removed; a
closed request channel triggers ClientCloseAll then Wait and returns
ctx.Err(); a request is switched on its discriminator: StartStream calls Add
and discards its error, StreamData/ClientCancel/ClientClose call
Send/Cancel/ClientClose and return their error if non-nil, and an unhandled
discriminator returns an INTERNAL status error naming the dynamic type. -/
def dispatchStep {σ SS SD CC CL : Type} (ts : TargetStreamSet σ SS SD CC CL)
    (d : DispatchState σ SS SD CC CL) (ev : DispatchEvent SS SD CC CL) :
    DispatchState σ SS SD CC CL :=
  match d.result with
  | some _ => d
  | none =>
    match ev with
    | .ctxDone e => { d with result := some (some e) }
    | .streamDone id =>
      { d with set := ts.remove d.set id, acts := d.acts ++ [.remove id] }
    | .reqChanClosed ctxErr =>
      { d with set := ts.clientCloseAll d.set,
               acts := d.acts ++ [.clientCloseAll, .wait],
               result := some ctxErr }
    | .req (.startStream m) =>
      { d with set := (ts.add d.set m).1, acts := d.acts ++ [.add m] }
    | .req (.streamData m) =>
      let r := ts.send d.set m
      { d with set := r.1, acts := d.acts ++ [.send m],
               result := Option.map some r.2 }
    | .req (.clientCancel m) =>
      let r := ts.cancel d.set m
      { d with set := r.1, acts := d.acts ++ [.cancel m],
               result := Option.map some r.2 }
    | .req (.clientClose m) =>
      let r := ts.clientClose d.set m
      { d with set := r.1, acts := d.acts ++ [.clientClose m],
               result := Option.map some r.2 }
    | .req (.unhandled t) =>
      let e : Err := .grpc .internal ("unhandled request type " ++ t)
      { d with result := some (some e) }

/-- The dispatch loop run over a trace of select resolutions. -/
def dispatchRun {σ SS SD CC CL : Type} (ts : TargetStreamSet σ SS SD CC CL)
    (d : DispatchState σ SS SD CC CL) :
    List (DispatchEvent SS SD CC CL) → DispatchState σ SS SD CC CL
  | [] => d
  | ev :: evs => dispatchRun ts (dispatchStep ts d ev) evs

/-- Initial dispatcher state over a fresh stream set handle. -/
def dispatchInit {σ SS SD CC CL : Type} (s : σ) : DispatchState σ SS SD CC CL :=
  { set := s, result := none, acts := [] }

end server

namespace gen

/-- Raw tagged reply delivered by the proxy client machinery (proxy.Ret): the
target, the index into the target slice, the opaque payload, and the carried
error.  The payload type α stands for the anypb.Any envelope. -/
structure Ret (α : Type) where
  target : String
  index : Int
  resp : α
  error : Option Err
deriving DecidableEq, Repr

/-- Typed per-target response emitted by every generated OneMany method. -/
structure ManyResponse (β : Type) where
  target : String
  index : Int
  resp : β
  error : Option Err
deriving DecidableEq, Repr

/-- Rendering of a Go error value by the fmt %v verb: nil prints as the text
shown, a non-nil error prints its Error() text. -/
def fmtErr : Option Err → String
  | none => "<nil>"
  | some e => e.message

/-- Conversion of one raw tagged reply into a typed ManyResponse, exactly as
the generator emits it in the streaming Recv body and in the unary conversion
goroutine: copy Target/Index/Error; when the carried error is nil, UnmarshalTo
the payload into a fresh zero-valued output message, and on unmarshal failure
replace the error by the combined decode message (which renders the original,
nil, error with %v).  zero is the zero value of the output message type and u
models UnmarshalTo as the decoded message or the unmarshal error text. -/
def convertRet {α β : Type} (zero : β) (u : α → Except String β)
    (r : Ret α) : ManyResponse β :=
  let typed : ManyResponse β :=
    { target := r.target, index := r.index, resp := zero, error := r.error }
  match r.error with
  | some _ => typed
  | none =>
    match u r.resp with
    | .ok m => { typed with resp := m }
    | .error ue =>
      let msg := "can't decode any response - " ++ ue ++ ". Original Error - "
          ++ fmtErr r.error
      { typed with error := some (.simple msg) }

/-- Proxy branch of the generated streaming Recv body: one RecvMsg into a
slice of raw replies; a RecvMsg error is returned as the error result;
otherwise each raw reply of the batch is converted in order. -/
def recvOnce {α β : Type} (zero : β) (u : α → Except String β)
    (res : Except Err (List (Ret α))) : Except Err (List (ManyResponse β)) :=
  match res with
  | .error e => .error e
  | .ok m => .ok (m.map (convertRet zero u))

/-- Conversion goroutine of the unary OneMany path: every raw reply drawn from
the multiplexed channel is converted with the same logic and forwarded, and
the output channel is closed when the input channel closes.  Channels are
modelled as the lists of values sent before close. -/
def unaryConvertLoop {α β : Type} (zero : β) (u : α → Except String β)
    (raws : List (Ret α)) : List (ManyResponse β) :=
  raws.map (convertRet zero u)

/-- Generated unary MethodOneMany body.  targets is conn.Targets; invoke
models conn.Invoke as the final content of the out message together with the
returned error; invokeOneMany models conn.InvokeOneMany as either its
immediate error or the raw replies its channel delivers before closing.  When
exactly one target is configured the method takes the direct-Invoke branch and
emits a single response (error set only when Invoke failed) before closing the
channel; otherwise it converts the multiplexed replies. -/
def unaryOneMany {α β : Type} (zero : β) (u : α → Except String β)
    (targets : List String) (invoke : Option Err × β)
    (invokeOneMany : Except Err (List (Ret α))) :
    Except Err (List (ManyResponse β)) :=
  if targets.length = 1 then
    .ok [{ target := targets.headD "", index := 0,
           resp := invoke.2, error := invoke.1 }]
  else
    match invokeOneMany with
    | .error e => .error e
    | .ok raws => .ok (unaryConvertLoop zero u raws)

/-- Direct branch of the generated streaming Recv: if directDone is already
set, return (nil, io.EOF); otherwise issue one typed RecvMsg (modelled as the
final message content plus the returned error), append one ManyResponse for
Targets[0] at index 0 carrying that message and error, set directDone when the
error is non-nil, and return the single-element batch with a nil error. -/
def directRecvStep {β : Type} (targets : List String) (directDone : Bool)
    (recv : Option Err × β) : Except Err (List (ManyResponse β)) × Bool :=
  if directDone then (.error .ioEOF, directDone)
  else
    (.ok [{ target := targets.headD "", index := 0,
            resp := recv.2, error := recv.1 }],
     recv.1.isSome)

/-- Successive direct-mode Recv calls.  Each trace element is one call to Recv
together with the outcome RecvMsg would produce if issued; once directDone is
set the outcome is ignored and the call returns (nil, io.EOF). -/
def directRecvRun {β : Type} (targets : List String) :
    Bool → List (Option Err × β) → List (Except Err (List (ManyResponse β)))
  | _, [] => []
  | dd, r :: rest =>
    let s := directRecvStep targets dd r
    s.1 :: directRecvRun targets s.2 rest

/-- Loop of the generated CloseAndRecv after CloseSend, in proxy mode: eof
holds one flag per configured target, every flag initially false; the loop
exits with the accumulated responses only when every flag is true; otherwise
each iteration issues one RecvMsg into a slice of raw replies, returns
(nil, err) on a RecvMsg error, and otherwise converts and accumulates the
batch.  No statement of the emitted body ever updates eof.  A none result
means the loop is blocked on a RecvMsg beyond the supplied trace. -/
def closeAndRecvLoop {α β : Type} (zero : β) (u : α → Except String β)
    (eof : List Bool) :
    List (Except Err (List (Ret α))) → List (ManyResponse β) →
    Option (Except Err (List (ManyResponse β)))
  | tr, acc =>
    if eof.all (fun b => b) then some (.ok acc)
    else
      match tr with
      | [] => none
      | .error e :: _ => some (.error e)
      | .ok batch :: rest =>
        closeAndRecvLoop zero u eof rest (acc ++ batch.map (convertRet zero u))

/-- Generated CloseAndRecv of a client-streaming method: CloseSend first,
returning (nil, err) on failure; then the shared Recv body: in direct mode the
single direct RecvMsg branch, otherwise the loop above with eof initialised to
one false flag per target and an empty accumulator. -/
def closeAndRecv {α β : Type} (zero : β) (u : α → Except String β)
    (targets : List String) (closeSendErr : Option Err) (direct : Bool)
    (directDone : Bool) (directRecv : Option Err × β)
    (proxyTrace : List (Except Err (List (Ret α)))) :
    Option (Except Err (List (ManyResponse β))) :=
  match closeSendErr with
  | some e => some (.error e)
  | none =>
    if direct then some (directRecvStep targets directDone directRecv).1
    else closeAndRecvLoop zero u (targets.map (fun _ => false)) proxyTrace []

/-- Test for a loop result that delivers collected responses successfully. -/
def isOkResult {β : Type} : Option (Except Err (List (ManyResponse β))) → Bool
  | some (.ok _) => true
  | _ => false

end gen

/-! Helper lemmas shared by the claim theorems. -/

namespace server

theorem receive_msg_prefix {Req : Type} (msgs : List Req)
    (tr : List (RecvEvent Req)) :
    receive (msgs.map RecvEvent.msg ++ tr) =
      (receive tr).map (fun p => (p.1, msgs ++ p.2)) := by
  induction msgs with
  | nil =>
    cases h : receive tr <;> simp [h]
  | cons m ms ih =>
    simp only [List.map_cons, List.cons_append, receive, List.append_eq]
    rw [ih]
    cases h : receive tr with
    | none => simp
    | some p => simp

theorem send_ok_prefix {R : Type} (okMsgs : List R)
    (rest : List (R × Option Err)) :
    send (okMsgs.map (fun x => (x, (none : Option Err))) ++ rest) =
      ((send rest).1, okMsgs ++ (send rest).2) := by
  induction okMsgs with
  | nil => simp
  | cons m ms ih => simp [send, ih]

theorem dispatchStep_of_returned {σ SS SD CC CL : Type}
    (ts : TargetStreamSet σ SS SD CC CL) (d : DispatchState σ SS SD CC CL)
    (ev : DispatchEvent SS SD CC CL) (r : Option Err)
    (h : d.result = some r) : dispatchStep ts d ev = d := by
  unfold dispatchStep
  rw [h]

theorem dispatchRun_of_returned {σ SS SD CC CL : Type}
    (ts : TargetStreamSet σ SS SD CC CL) (d : DispatchState σ SS SD CC CL)
    (evs : List (DispatchEvent SS SD CC CL)) (r : Option Err)
    (h : d.result = some r) : dispatchRun ts d evs = d := by
  induction evs with
  | nil => rfl
  | cons ev evs ih =>
    rw [dispatchRun, dispatchStep_of_returned ts d ev r h, ih]

end server

namespace gen

theorem directRecvRun_of_done {β : Type} (targets : List String)
    (tr : List (Option Err × β)) :
    directRecvRun targets true tr =
      tr.map (fun _ => Except.error Err.ioEOF) := by
  induction tr with
  | nil => rfl
  | cons r rest ih => simp [directRecvRun, directRecvStep, ih]

theorem directRecvRun_ok_prefix {β : Type} (targets : List String)
    (oks : List β) (tr : List (Option Err × β)) :
    directRecvRun targets false
        (oks.map (fun m => ((none : Option Err), m)) ++ tr) =
      oks.map (fun m =>
          Except.ok [{ target := targets.headD "", index := 0,
                       resp := m, error := none }])
        ++ directRecvRun targets false tr := by
  induction oks with
  | nil => simp
  | cons m ms ih => simp [directRecvRun, directRecvStep, ih]

theorem closeAndRecvLoop_single_target_no_ok {α β : Type} (zero : β)
    (u : α → Except String β) (tr : List (Except Err (List (Ret α))))
    (acc : List (ManyResponse β)) :
    isOkResult (closeAndRecvLoop zero u [false] tr acc) = false := by
  induction tr generalizing acc with
  | nil => rfl
  | cons b rest ih =>
    cases b with
    | error e => rfl
    | ok batch =>
      rw [closeAndRecvLoop]
      simpa using ih (acc ++ batch.map (convertRet zero u))

end gen

/-! Claim theorems. -/

/-- C1: Proxy returns nil exactly when all three coordination tasks (their
results listed in completion order) return nil; otherwise it returns a gRPC
status with code INTERNAL whose message is the text of the first non-nil error
among the tasks. -/
theorem C1_proxy_final_status (a b c : Option Err) :
    (server.proxyResult [a, b, c] = none ↔
      a = none ∧ b = none ∧ c = none) ∧
    (∀ e : Err, errgroupWait [a, b, c] = some e →
      server.proxyResult [a, b, c] = some (.grpc .internal e.message)) := by
  constructor
  · cases a <;> cases b <;> cases c <;>
      simp [server.proxyResult, errgroupWait]
  · intro e he
    simp [server.proxyResult, he]

/-- Witness for C1 at a concrete input: a failed send pump surfaces as an
INTERNAL status carrying its message. -/
theorem C1_proxy_final_status_witness :
    server.proxyResult [some (Err.simple "broken pipe"), none, none] =
      some (.grpc .internal "broken pipe") :=
  (C1_proxy_final_status (some (Err.simple "broken pipe")) none none).2
    (Err.simple "broken pipe") rfl

/-- C7: the receive pump forwards every successfully received frame in arrival
order; it returns nil on io.EOF (after which the request channel is closed by
the deferred close), returns any other receive error unchanged, and returns
the context's error when the scope is cancelled while it waits to forward a
frame. -/
theorem C7_receive_pump {Req : Type} (msgs : List Req) (e ce : Err) (r : Req) :
    server.receiveTask (msgs.map server.RecvEvent.msg
        ++ [server.RecvEvent.eof]) = some (none, msgs, true) ∧
    server.receiveTask (msgs.map server.RecvEvent.msg
        ++ [server.RecvEvent.recvErr e]) = some (some e, msgs, true) ∧
    server.receiveTask (msgs.map server.RecvEvent.msg
        ++ [server.RecvEvent.msgCtxDone r ce]) = some (some ce, msgs, true) := by
  refine ⟨?_, ?_, ?_⟩ <;>
    simp [server.receiveTask, server.receive_msg_prefix, server.receive]

/-- C9: the send pump forwards replies to the client stream in channel order;
it returns nil exactly when the channel closed with every Send having
succeeded (first conjunct and third conjunct), and otherwise returns the first
Send error having attempted no send past the failing one (second conjunct). -/
theorem C9_send_pump {R : Type} (okMsgs : List R) (m : R) (e : Err)
    (rest : List (R × Option Err)) (items : List (R × Option Err)) :
    server.send (okMsgs.map (fun x => (x, (none : Option Err)))) =
      (none, okMsgs) ∧
    server.send (okMsgs.map (fun x => (x, (none : Option Err)))
        ++ (m, some e) :: rest) = (some e, okMsgs ++ [m]) ∧
    ((server.send items).1 = none ↔ ∀ p ∈ items, p.2 = none) := by
  refine ⟨?_, ?_, ?_⟩
  · simpa [server.send] using server.send_ok_prefix okMsgs []
  · simp [server.send_ok_prefix, server.send]
  · induction items with
    | nil => simp [server.send]
    | cons p rest ih =>
      obtain ⟨x, e?⟩ := p
      cases e? with
      | none => simpa [server.send] using ih
      | some e2 => simp [server.send]

/-- Witness for C9 at concrete inputs, discharging the iff left-to-right on a
trace where every Send succeeds. -/
theorem C9_send_pump_witness :
    ∀ p ∈ [((3 : Nat), (none : Option Err)), (4, none)], p.2 = none :=
  (C9_send_pump ([] : List Nat) 0 (Err.simple "x") []
      [((3 : Nat), (none : Option Err)), (4, none)]).2.2.mp rfl

/-- C10: handling a StartStream frame never returns an error and never stops
the dispatcher: the error component of the stream set Add is discarded, and
the resulting state is still running whatever Add returned. -/
theorem C10_startstream_never_fatal {σ SS SD CC CL : Type}
    (ts : server.TargetStreamSet σ SS SD CC CL) (s : σ)
    (acts : List (server.Action SS SD CC CL)) (m : SS) :
    server.dispatchStep ts { set := s, result := none, acts := acts }
        (.req (.startStream m)) =
      { set := (ts.add s m).1, result := none, acts := acts ++ [.add m] } := by
  rfl

/-- C8: a running dispatcher that observes the request channel closed invokes
ClientCloseAll then Wait, in that order, performs no further dispatch (every
later event is ignored), and returns the value of ctx.Err() at that point —
hence nil whenever the session scope has not been cancelled. -/
theorem C8_dispatch_request_channel_closed {σ SS SD CC CL : Type}
    (ts : server.TargetStreamSet σ SS SD CC CL) (s : σ)
    (acts : List (server.Action SS SD CC CL)) (ctxErr : Option Err)
    (evs : List (server.DispatchEvent SS SD CC CL)) :
    server.dispatchRun ts { set := s, result := none, acts := acts }
        (.reqChanClosed ctxErr :: evs) =
      { set := ts.clientCloseAll s, result := some ctxErr,
        acts := acts ++ [.clientCloseAll, .wait] } := by
  rw [server.dispatchRun]
  exact server.dispatchRun_of_returned ts _ evs ctxErr rfl

/-- C2: a running dispatcher that consumes a request frame returns a non-nil
error precisely when the frame's discriminator is none of
StartStream/StreamData/ClientCancel/ClientClose, or when the stream set's
Send, Cancel, or ClientClose call for it returned a non-nil first error; in
the latter case the returned error is exactly that error, and any such return
cancels the errgroup scope of the session. -/
theorem C2_dispatch_request_errors {σ SS SD CC CL : Type}
    (ts : server.TargetStreamSet σ SS SD CC CL) (s : σ)
    (acts : List (server.Action SS SD CC CL))
    (r : server.ProxyRequest SS SD CC CL) (e : Err) :
    ((server.dispatchStep ts { set := s, result := none, acts := acts }
        (.req r)).result = some (some e) ↔
      ((∃ t, r = .unhandled t ∧
          e = .grpc .internal ("unhandled request type " ++ t)) ∨
       (∃ m, r = .streamData m ∧ (ts.send s m).2 = some e) ∨
       (∃ m, r = .clientCancel m ∧ (ts.cancel s m).2 = some e) ∨
       (∃ m, r = .clientClose m ∧ (ts.clientClose s m).2 = some e))) ∧
    ((server.dispatchStep ts { set := s, result := none, acts := acts }
        (.req r)).result = some (some e) →
      errgroupCtxCancelled [some e] = true) := by
  refine ⟨?_, fun _ => rfl⟩
  cases r with
  | startStream m => simp [server.dispatchStep]
  | streamData m => simp [server.dispatchStep, Option.map_eq_some']
  | clientCancel m => simp [server.dispatchStep, Option.map_eq_some']
  | clientClose m => simp [server.dispatchStep, Option.map_eq_some']
  | unhandled t => simp [server.dispatchStep, eq_comm]

/-- Concrete stream set over a unit state, used to evaluate the dispatcher on
concrete inputs: Send reports a protocol error, every other operation
succeeds. -/
def tsSendErr : server.TargetStreamSet Unit Nat Nat Nat Nat :=
  { add := fun s _ => (s, none)
  , send := fun s _ => (s, some (.simple "no such stream"))
  , cancel := fun s _ => (s, none)
  , clientClose := fun s _ => (s, none)
  , remove := fun s _ => s
  , clientCloseAll := fun s => s }

/-- Witness for C2 at a concrete input: a StreamData frame whose fan-out
reports a protocol error makes the dispatcher return it and cancels the
scope. -/
theorem C2_dispatch_request_errors_witness :
    errgroupCtxCancelled [some (Err.simple "no such stream")] = true :=
  (C2_dispatch_request_errors tsSendErr () [] (.streamData 0)
      (Err.simple "no such stream")).2 rfl

/-- C5: for a direct-mode streaming call on the single target t, every message
received from the underlying stream is synthesized into exactly one
ManyResponse with Target t and Index 0; a terminal receive error is delivered
inside the error field of one such ManyResponse; and every Recv after that one
returns (nil, io.EOF) and never another response. -/
theorem C5_direct_stream_recv {β : Type} (t : String) (oks : List β) (e : Err)
    (z : β) (rest : List (Option Err × β)) :
    gen.directRecvRun [t] false
        ((oks.map (fun m => ((none : Option Err), m)))
          ++ (some e, z) :: rest) =
      (oks.map (fun m =>
          Except.ok [{ target := t, index := 0, resp := m, error := none }]))
        ++ Except.ok [{ target := t, index := 0, resp := z, error := some e }]
          :: rest.map (fun _ => Except.error Err.ioEOF) := by
  rw [gen.directRecvRun_ok_prefix]
  simp [gen.directRecvRun, gen.directRecvStep, gen.directRecvRun_of_done]

/-- C6: a unary OneMany call on a connection with exactly one target t
bypasses the multiplexer: the result is independent of the multiplexed call,
and is the single-element sequence holding one ManyResponse with Target t,
Index 0, the content the direct Invoke left in the out message, and an error
that is exactly the direct Invoke error (so non-nil exactly when the direct
call failed); the sequence ends after it. -/
theorem C6_unary_single_target {α β : Type} (zero : β)
    (u : α → Except String β) (t : String) (invoke : Option Err × β)
    (iom₁ iom₂ : Except Err (List (gen.Ret α))) :
    gen.unaryOneMany zero u [t] invoke iom₁ =
      .ok [{ target := t, index := 0,
             resp := invoke.2, error := invoke.1 }] ∧
    gen.unaryOneMany zero u [t] invoke iom₁ =
      gen.unaryOneMany zero u [t] invoke iom₂ := by
  constructor <;> rfl

/-- C4: a raw tagged reply whose carried error is nil but whose payload fails
to decode yields a ManyResponse whose error is the message naming both the
decoding failure and the (nil) original status, and the surrounding sequence
continues past it unchanged, on the unary conversion loop as well as on the
streaming Recv batch. -/
theorem C4_decode_failure_in_sequence {α β : Type} (zero : β)
    (u : α → Except String β) (pre post : List (gen.Ret α)) (r : gen.Ret α)
    (ue : String) (herr : r.error = none) (hu : u r.resp = .error ue) :
    gen.unaryConvertLoop zero u (pre ++ r :: post) =
      gen.unaryConvertLoop zero u pre
        ++ ({ target := r.target, index := r.index, resp := zero,
              error := some (.simple ("can't decode any response - " ++ ue
                ++ ". Original Error - " ++ "<nil>")) } : gen.ManyResponse β)
          :: gen.unaryConvertLoop zero u post ∧
    gen.recvOnce zero u (.ok (pre ++ r :: post)) =
      .ok (gen.unaryConvertLoop zero u (pre ++ r :: post)) := by
  constructor
  · simp [gen.unaryConvertLoop, gen.convertRet, herr, hu, gen.fmtErr]
  · rfl

/-- Witness for C4 at a concrete input: a batch of two replies whose first
payload fails to decode still converts both, the first carrying the combined
decode message. -/
theorem C4_decode_failure_in_sequence_witness :
    gen.unaryConvertLoop (α := Nat) (β := Nat) 0
        (fun a => if a = 5 then .error "bad Any" else .ok a)
        ([] ++ ({ target := "t1", index := 0, resp := 5, error := none } : gen.Ret Nat)
          :: [{ target := "t2", index := 1, resp := 7, error := none }]) =
      [] ++ ({ target := "t1", index := 0, resp := 0,
               error := some (.simple ("can't decode any response - " ++ "bad Any"
                 ++ ". Original Error - " ++ "<nil>")) } : gen.ManyResponse Nat)
        :: gen.unaryConvertLoop 0
            (fun a => if a = 5 then .error "bad Any" else .ok a)
            [{ target := "t2", index := 1, resp := 7, error := none }] :=
  (C4_decode_failure_in_sequence 0
      (fun a => if a = 5 then .error "bad Any" else .ok a) []
      [{ target := "t2", index := 1, resp := 7, error := none }]
      { target := "t1", index := 0, resp := 5, error := none }
      "bad Any" rfl rfl).1

/-- C3: evaluation of the generated client-streaming CloseAndRecv at a
failing input (single proxied target, successful CloseSend, one batch carrying
the target's reply, then end of stream): the collected responses are discarded
and (nil, io.EOF) is returned instead.  More generally, with one configured
target the emitted loop never returns a collected sequence at all, because the
per-target eof flags it tests are never set by any emitted statement. -/
theorem C3_closeAndRecv_never_returns_collected :
    gen.closeAndRecv (α := Nat) (β := Nat) 0 (fun a => .ok a) ["t"] none false
        false (none, 0)
        [.ok [{ target := "t", index := 0, resp := 42, error := none }],
         .error .ioEOF] = some (.error .ioEOF) ∧
    ∀ (tr : List (Except Err (List (gen.Ret Nat)))),
      gen.isOkResult (gen.closeAndRecv (β := Nat) 0 (fun a => .ok a) ["t"]
          none false false (none, 0) tr) = false := by
  constructor
  · rfl
  · intro tr
    exact gen.closeAndRecvLoop_single_target_no_ok 0 (fun a => .ok a) tr []

end Sansshell
